import Mathlib

/-!
# Shallow embedding of the RSS-AI backend

This file embeds, in Lean, the parts of the RSS-AI repository
(`backend/app/main.py` and `backend/app/wecom_client.py`) needed to verify
its natural-language specification: the WeCom notification client (message
formatting, line-aware truncation, send-result handling), the
keyword-filtering step of the fetch pipeline, the hourly/daily
schedule-alignment functions, and the settings read/update endpoints.

Python strings are modelled as Lean `String` (a sequence of characters);
`len` is `String.length`.  The Python string helpers the code relies on
(`str.strip`, `str.isdigit`, `"sep".join`, `s.split(sep)`, substring `in`,
`int(s)`) are modelled explicitly on the character list `String.data`.
Stateful endpoints are modelled by explicit state passing: the persisted
settings document is an argument, and an update returns `Except`; an
`Except.error` outcome models an HTTP error raised before the single
`save_settings` call at the end of the handler, so the stored document is
unchanged, while `Except.ok s` models a successful request that persists
`s`.
-/

namespace RSSAI

/-- Python `str.strip()` on a character list: drop leading and trailing
whitespace characters. -/
def pyStripList (l : List Char) : List Char :=
  ((l.dropWhile Char.isWhitespace).reverse.dropWhile Char.isWhitespace).reverse

/-- Python `str.strip()` (whitespace restricted to the ASCII whitespace
characters Lean's `Char.isWhitespace` recognises). -/
def pyStrip (s : String) : String := ⟨pyStripList s.data⟩

/-- Python `str.isdigit()` (restricted to ASCII digits): the string is
non-empty and every character is a digit. -/
def pyIsDigit (s : String) : Bool := !s.data.isEmpty && s.data.all Char.isDigit

/-- Python `"sep".join(parts)`. -/
def pyJoin (sep : String) : List String → String
  | [] => ""
  | [p] => p
  | p :: q :: rest => p ++ sep ++ pyJoin sep (q :: rest)

/-- Python `s.split(sep)` for a one-character separator, on character
lists: `"".split(sep) == [""]`, and adjacent separators produce empty
fields. -/
def pySplitChar (sep : Char) : List Char → List (List Char)
  | [] => [[]]
  | c :: cs =>
    if c = sep then [] :: pySplitChar sep cs
    else
      match pySplitChar sep cs with
      | [] => [[c]]
      | g :: gs => (c :: g) :: gs

/-- Python `needle in hay` for strings: substring containment. -/
def pyInStr (needle hay : String) : Bool := decide (needle.data <:+: hay.data)

/-- The greedy line-accumulation loop of `WeComClient._truncate_text`
(wecom_client.py lines 112-119): keep whole lines while the running length
(line length plus one for the joining newline) stays within
`max_length - 3`.  Natural truncated subtraction agrees with Python's
(possibly negative) `max_length - 3` here: when `max_length < 3` the Python
bound is negative and the loop breaks at once, and in Lean
`cur + line.length + 1 ≥ 1 > 0 = max_length - 3` breaks at once as well. -/
def truncateLoop (max_length : Nat) : List String → Nat → List String
  | [], _ => []
  | line :: rest, cur =>
    if cur + line.length + 1 > max_length - 3 then []
    else line :: truncateLoop max_length rest (cur + line.length + 1)

/-- Model of `text.split('\n')` as used by `_truncate_text` (wecom_client.py line
111). -/
def truncLines (text : String) : List String :=
  (pySplitChar '\n' text.data).map (fun l => (⟨l⟩ : String))

/-- Embeds `WeComClient._truncate_text` (wecom_client.py lines 99-125). -/
def truncate_text (text : String) (max_length : Nat) : String :=
  if text.length ≤ max_length then text
  else
    let truncated := pyJoin "\n" (truncateLoop max_length (truncLines text) 0)
    if truncated.length < text.length then truncated ++ "..." else truncated

/-- Outcome of the webhook HTTP POST in `WeComClient.send_message`, as seen
by the surrounding `try` block: either the request itself raised
(connection error, timeout, ...), or a response arrived with a status code
and a body.  The body is `none` when `resp.json()` raises (unparsable
JSON), and otherwise carries the optional integer `errcode` field of the
JSON object. -/
inductive WeComResponse where
  | transportError : WeComResponse
  | response (status : Nat) (body : Option (Option Int)) : WeComResponse

/-- The default used by `data.get("errcode", -1)` when the response JSON
object has no `errcode` field (wecom_client.py line 53). -/
def missing_errcode_default : Int := -1

/-- Embeds `WeComClient.send_message` (wecom_client.py lines 23-60), with the HTTP
interaction abstracted into the `WeComResponse` argument.  The Python code
catches every exception inside its `try` block and returns `False`; this
total function models that: every raising path maps to `false`.
`resp.raise_for_status()` (httpx) raises exactly for non-2xx statuses. -/
def send_message (webhook_key : String) (resp : WeComResponse) : Bool :=
  if webhook_key = "" then false
  else
    match resp with
    | .transportError => false
    | .response status body =>
      if status < 200 ∨ 300 ≤ status then false
      else
        match body with
        | none => false
        | some ec =>
          if ec.getD missing_errcode_default ≠ 0 then false else true

/-- Embeds `WeComClient.format_markdown_message` (wecom_client.py lines 62-97).
In Python `matched_keywords` is optional with default `None` and is only
tested for truthiness, so `None` and `[]` behave identically; it is
modelled as a plain list. -/
def format_markdown_message (title link pub_date author summary_text : String)
    (matched_keywords : List String) : String :=
  let parts := ["**" ++ title ++ "**", "[原文链接](" ++ link ++ ")"]
  let meta := (if pub_date ≠ "" then ["发布时间：" ++ pub_date] else [])
      ++ (if author ≠ "" then ["作者：" ++ author] else [])
      ++ (if ¬ matched_keywords.isEmpty then
            ["关键词：" ++ pyJoin "、" matched_keywords] else [])
  let parts := parts ++ (if ¬ meta.isEmpty then [pyJoin " | " meta] else [])
  let parts := parts ++
      (if summary_text ≠ "" then ["\n" ++ truncate_text summary_text 1000] else [])
  pyJoin "\n" parts

mutual
/-- Body of a Python decimal integer literal: a digit, then more digits
possibly separated by single underscores (CPython accepts underscores
between digits, as in `int("1_2") == 12`). -/
def pyDigitsBody : List Char → Bool
  | [] => false
  | c :: cs => c.isDigit && pyDigitsRest cs

/-- Continuation of `pyDigitsBody`: after a digit, either more digits or a
single underscore that must be followed by a digit. -/
def pyDigitsRest : List Char → Bool
  | [] => true
  | c :: cs => if c = '_' then pyDigitsBody cs else c.isDigit && pyDigitsRest cs
end

/-- Python `int(s)` on a decimal string: strips surrounding whitespace,
allows an optional sign and underscores between digits; `none` models the
`ValueError` raised on any other input. -/
def pyInt (s : String) : Option Int :=
  let l := pyStripList s.data
  let sb : Int × List Char :=
    match l with
    | '-' :: rest => (-1, rest)
    | '+' :: rest => (1, rest)
    | _ => (1, l)
  if pyDigitsBody sb.2 then
    some (sb.1 * ((sb.2.filter Char.isDigit).foldl
      (fun n c => 10 * n + (c.toNat - 48)) 0 : Nat))
  else none

/-- The `try` block of `_next_midnight` (main.py lines 110-114):
`hour, minute = map(int, report_time.split(":"))` succeeds exactly when
the split yields two fields and both parse as Python integers; any other
shape raises and is caught. -/
def reportTimeParts (report_time : String) : Option (Int × Int) :=
  match (pySplitChar ':' report_time.data).map (fun l => pyInt ⟨l⟩) with
  | [some h, some m] => some (h, m)
  | _ => none

/-- Hour and minute used by `_next_midnight` (main.py lines 110-117):
parsed components clamped into [0,23] and [0,59]; any parse failure falls
back to 00:00. -/
def parseReportTime (report_time : String) : Nat × Nat :=
  match reportTimeParts report_time with
  | some (h, m) => ((max 0 (min 23 h)).toNat, (max 0 (min 59 m)).toNat)
  | none => (0, 0)

/-- Modelled from the spec: `BEIJING_TZ` is declared in report_service.py,
which is absent from src/; the spec fixes it as "Reference time zone:
UTC+8".  Instants are seconds since an epoch (`Nat`); the Beijing wall
clock of instant `t` is `t + beijingOffset`. -/
def beijingOffset : Nat := 8 * 3600

/-- Embeds `_next_top_of_hour` (main.py lines 98-103).  `local.replace(minute=0,
second=0, microsecond=0)` floors the local wall clock to the hour, and
`timedelta(hours=1)` adds 3600 seconds (the zone has a fixed offset, so
wall-clock arithmetic is plain second arithmetic). -/
def next_top_of_hour (now : Nat) : Nat :=
  let localT := now + beijingOffset
  let aligned := localT / 3600 * 3600
  let aligned := if aligned ≤ localT then aligned + 3600 else aligned
  aligned - beijingOffset

/-- Embeds `_next_midnight` (main.py lines 106-122).  `local.replace(hour=h,
minute=m, second=0, microsecond=0)` in a fixed-offset zone is the local
day's start plus `h` hours and `m` minutes, and `timedelta(days=1)` adds
86400 seconds. -/
def next_midnight (now : Nat) (report_time : String) : Nat :=
  let localT := now + beijingOffset
  let hm := parseReportTime report_time
  let aligned := localT / 86400 * 86400 + hm.1 * 3600 + hm.2 * 60
  let aligned := if aligned ≤ localT then aligned + 86400 else aligned
  aligned - beijingOffset

/-- Keyword normalisation in `do_fetch_once` (main.py lines 263-264):
strip each configured keyword and drop blanks.  (The `isinstance(kw, str)`
guard is vacuously true here since keywords are modelled as strings.) -/
def normalizeKeywords (raw : List String) : List String :=
  (raw.map pyStrip).filter (fun kw => kw ≠ "")

/-- Haystack construction (main.py lines 305-306): the `" \n "`-joined
non-falsy parts among title, author, feed content, extracted content.
Feed fields are plain strings (empty models absent); the extracted page
content is optional (`None` when extraction was skipped or failed). -/
def haystackOf (title author content : String) (extracted : Option String) : String :=
  pyJoin " \n " (([title, author, content] ++ extracted.toList).filter (fun p => p ≠ ""))

/-- Model of `list(dict.fromkeys(l))` (main.py line 311): de-duplicate keeping the
first occurrence of each element, preserving order; `seen` accumulates the
keys already emitted. -/
def dedupFirstAux (seen : List String) : List String → List String
  | [] => []
  | x :: xs =>
    if x ∈ seen then dedupFirstAux seen xs else x :: dedupFirstAux (x :: seen) xs

/-- Model of `list(dict.fromkeys(l))` from the empty seen-set. -/
def dedupFirst (l : List String) : List String := dedupFirstAux [] l

/-- Matched-keyword computation (main.py lines 307-311): the configured
terms that are non-blank and occur as substrings of the haystack,
de-duplicated keeping first occurrences.  (The code applies
`dict.fromkeys` only when the filtered list is non-empty; de-duplicating
the empty list yields the empty list, so this is the same function.) -/
def matchedKeywordsOf (keyword_terms : List String) (hay : String) : List String :=
  dedupFirst (keyword_terms.filter (fun kw => kw ≠ "" && pyInStr kw hay))

/-- The `keywords_matched` flag (main.py lines 308-317): with a non-empty
term list, whether any keyword matched; with no configured terms, `True`. -/
def keywordsMatchedOf (keyword_terms : List String) (hay : String) : Bool :=
  if keyword_terms.isEmpty then true
  else !(matchedKeywordsOf keyword_terms hay).isEmpty

/-- Observable per-entry outcomes of one iteration of the entry loop in
`do_fetch_once`. -/
structure EntryDecision where
  matched_keywords : List String
  keywords_matched : Bool
  ai_invoked : Bool
  used_fallback : Bool
  stored : Bool
  pushed_telegram : Bool
  pushed_wecom : Bool

/-- Per-entry control flow of `do_fetch_once` (main.py lines 305-385)
after the dedup check, abstracting the outcomes of external calls: whether
an AI client was built (`ai_present`), whether `ai.summarize` returned a
value (`ai_success`), whether `insert_article` returned a row id
(`insert_ok`), and the client and push-mode gates computed at lines
233-249.  AI is invoked only when a client is present and keywords
matched (line 324); the fallback summary is used whenever no AI result
exists (lines 339-348); the article is inserted regardless of matching,
and pushes happen only after a successful insert, for matching entries, on
article-push-eligible platforms (lines 370-385). -/
def processEntry (keyword_terms : List String) (hay : String)
    (ai_present ai_success insert_ok : Bool)
    (tg_present tg_push_articles wecom_present wecom_push_articles : Bool) :
    EntryDecision :=
  let mk := matchedKeywordsOf keyword_terms hay
  let km := keywordsMatchedOf keyword_terms hay
  let ai_invoked := ai_present && km
  { matched_keywords := mk
    keywords_matched := km
    ai_invoked := ai_invoked
    used_fallback := !(ai_invoked && ai_success)
    stored := insert_ok
    pushed_telegram := insert_ok && tg_present && km && tg_push_articles
    pushed_wecom := insert_ok && wecom_present && km && wecom_push_articles }

/-- Modelled from the spec: the `ai` section of `AppSettings` (models.py is
absent from src/), restricted to the fields `get_settings` and
`update_settings` read or write.  `timeout_seconds` is a Python float used
only for truthiness by these endpoints, modelled as `Nat` (0 is falsy). -/
structure AiSettings where
  api_key : String
  system_prompt : String
  user_prompt_template : String
  timeout_seconds : Nat
deriving DecidableEq

/-- Modelled from the spec: the `telegram` section, restricted to the field
the settings endpoints touch. -/
structure TelegramSettings where
  bot_token : String
deriving DecidableEq

/-- Modelled from the spec: the `wecom` section, restricted to the field
the settings endpoints touch. -/
structure WecomSettings where
  webhook_key : String
deriving DecidableEq

/-- Modelled from the spec: the `reports` section, restricted to the
fields the settings endpoints touch. -/
structure ReportsSettings where
  system_prompt : String
  user_prompt_template : String
  report_timeout_seconds : Nat
deriving DecidableEq

/-- Modelled from the spec: the `security` section — "admin_password
(4-digit numeric string; optional/absent)". -/
structure Security where
  admin_password : String
deriving DecidableEq

/-- Modelled from the spec: the singleton `AppSettings` document (§3),
restricted to the sections and fields that `get_settings` and
`update_settings` read or write; all remaining fields are carried through
both endpoints unchanged and are irrelevant to the claims about them.
`security` is optional ("optional/absent"), matching the `safe.security`
truthiness test in `get_settings` and the `is None` check in
`update_settings`. -/
structure AppSettings where
  ai : AiSettings
  telegram : TelegramSettings
  wecom : WecomSettings
  reports : ReportsSettings
  security : Option Security
deriving DecidableEq

/-- Modelled from the spec: the built-in defaults `AppSettings()` (§4.1:
"Defaults include non-empty built-in system/user prompt templates for both
AI summarization and report generation").  The concrete default strings are
never compared against by the claims, only required non-empty. -/
def defaults : AppSettings :=
  { ai := { api_key := ""
            system_prompt := "builtin ai system prompt"
            user_prompt_template := "builtin ai user prompt template"
            timeout_seconds := 30 }
    telegram := { bot_token := "" }
    wecom := { webhook_key := "" }
    reports := { system_prompt := "builtin report system prompt"
                 user_prompt_template := "builtin report user prompt template"
                 report_timeout_seconds := 60 }
    security := some { admin_password := "" } }

/-- Step of `get_settings`, lines 483-484: mask a non-empty AI API key. -/
def maskApiKey (s : AppSettings) : AppSettings :=
  if s.ai.api_key ≠ "" then { s with ai.api_key := "***" } else s

/-- Step of `get_settings`, lines 485-486: mask a non-empty Telegram bot token. -/
def maskBotToken (s : AppSettings) : AppSettings :=
  if s.telegram.bot_token ≠ "" then { s with telegram.bot_token := "***" } else s

/-- Step of `get_settings`, lines 487-488: mask a non-empty WeCom webhook key. -/
def maskWebhookKey (s : AppSettings) : AppSettings :=
  if s.wecom.webhook_key ≠ "" then { s with wecom.webhook_key := "***" } else s

/-- Step of `get_settings`, lines 489-490: blank out a non-empty admin password (a
Python model instance is always truthy, so `safe.security and ...` only
tests for `None`). -/
def maskAdminPassword (s : AppSettings) : AppSettings :=
  match s.security with
  | some sec =>
    if sec.admin_password ≠ "" then { s with security := some { admin_password := "" } }
    else s
  | none => s

/-- Secret masking of `get_settings` (main.py lines 482-490), in the
statement order of the code. -/
def maskSecrets (s : AppSettings) : AppSettings :=
  maskAdminPassword (maskWebhookKey (maskBotToken (maskApiKey s)))

/-- Prompt/timeout defaulting step (main.py line 493-494 and 530-531). -/
def defaultAiSystemPrompt (s : AppSettings) : AppSettings :=
  if pyStrip s.ai.system_prompt = "" then
    { s with ai.system_prompt := defaults.ai.system_prompt } else s

/-- Prompt/timeout defaulting step (main.py line 495-496 and 532-533). -/
def defaultAiUserPrompt (s : AppSettings) : AppSettings :=
  if pyStrip s.ai.user_prompt_template = "" then
    { s with ai.user_prompt_template := defaults.ai.user_prompt_template } else s

/-- Prompt/timeout defaulting step (main.py line 497-498 and 534-535). -/
def defaultAiTimeout (s : AppSettings) : AppSettings :=
  if s.ai.timeout_seconds = 0 then
    { s with ai.timeout_seconds := defaults.ai.timeout_seconds } else s

/-- Prompt/timeout defaulting step (main.py line 499-500 and 536-537). -/
def defaultReportSystemPrompt (s : AppSettings) : AppSettings :=
  if pyStrip s.reports.system_prompt = "" then
    { s with reports.system_prompt := defaults.reports.system_prompt } else s

/-- Prompt/timeout defaulting step (main.py line 501-502 and 538-539). -/
def defaultReportUserPrompt (s : AppSettings) : AppSettings :=
  if pyStrip s.reports.user_prompt_template = "" then
    { s with reports.user_prompt_template := defaults.reports.user_prompt_template } else s

/-- Prompt/timeout defaulting step (main.py line 503-504 and 540-541). -/
def defaultReportTimeout (s : AppSettings) : AppSettings :=
  if s.reports.report_timeout_seconds = 0 then
    { s with reports.report_timeout_seconds := defaults.reports.report_timeout_seconds } else s

/-- Prompt/timeout defaulting, shared verbatim by `get_settings` (main.py
lines 492-504) and `update_settings` (lines 530-541), in the statement
order of the code: blank (or whitespace-only) prompts and zero timeouts
are replaced by the built-in defaults. -/
def applyPromptDefaults (s : AppSettings) : AppSettings :=
  defaultReportTimeout (defaultReportUserPrompt (defaultReportSystemPrompt
    (defaultAiTimeout (defaultAiUserPrompt (defaultAiSystemPrompt s)))))

/-- Embeds `GET /api/settings` — `get_settings` (main.py lines 478-505), as a
pure function of the stored document (`load_settings()` reads it, and a
read never writes): mask secrets, then backfill blank prompt/timeout
fields from the built-in defaults for display. -/
def get_settings (s : AppSettings) : AppSettings :=
  applyPromptDefaults (maskSecrets s)

/-- Modelled from the spec: the `PUT /api/settings` request body
`{settings, password, new_password?}` (models.py is absent from src/).
Optional strings model Python `None` defaults; `req.password or ""` is
`Option.getD`. -/
structure UpdateSettingsRequest where
  settings : AppSettings
  password : Option String
  new_password : Option String

/-- An HTTP error response raised by `HTTPException(status_code, detail)`. -/
structure HttpError where
  status : Nat
  detail : String
deriving DecidableEq

/-- Step of `update_settings`, lines 523-524: an AI API key submitted as the
sentinel keeps the stored key. -/
def sentinelApiKey (old ns : AppSettings) : AppSettings :=
  if ns.ai.api_key = "***" then { ns with ai.api_key := old.ai.api_key } else ns

/-- Step of `update_settings`, lines 525-526: a bot token submitted as the sentinel
keeps the stored token. -/
def sentinelBotToken (old ns : AppSettings) : AppSettings :=
  if ns.telegram.bot_token = "***" then
    { ns with telegram.bot_token := old.telegram.bot_token } else ns

/-- Step of `update_settings`, lines 527-528: a webhook key submitted as the
sentinel keeps the stored key. -/
def sentinelWebhookKey (old ns : AppSettings) : AppSettings :=
  if ns.wecom.webhook_key = "***" then
    { ns with wecom.webhook_key := old.wecom.webhook_key } else ns

/-- The redaction-sentinel handling of `update_settings` (main.py lines
523-528), in the statement order of the code: a secret submitted as
`"***"` is replaced by the previously stored value. -/
def applySecretSentinels (old ns : AppSettings) : AppSettings :=
  sentinelWebhookKey old (sentinelBotToken old (sentinelApiKey old ns))

/-- Step of `update_settings`, lines 542-543: a missing security section is filled
from the defaults (it is overwritten just below in every case). -/
def applySecurityDefault (ns : AppSettings) : AppSettings :=
  if ns.security = none then { ns with security := defaults.security } else ns

/-- The password tail of `update_settings` (main.py lines 545-551): a
non-blank new password must be exactly 4 digits and becomes the stored
admin password, otherwise the old admin password is kept; the result is
what `save_settings` persists. -/
def applyNewPassword (oldSec : Security) (new_password : Option String)
    (ns : AppSettings) : Except HttpError AppSettings :=
  let newPw := pyStrip (new_password.getD "")
  if newPw ≠ "" then
    if ¬ (pyIsDigit newPw = true ∧ newPw.length = 4) then
      .error { status := 400, detail := "新密码必须为4位数字" }
    else .ok { ns with security := some { admin_password := newPw } }
  else .ok { ns with security := some { admin_password := oldSec.admin_password } }

/-- Embeds `PUT /api/settings` — `update_settings` (main.py lines 508-553), with
the settings store passed explicitly: `old` is the document
`load_settings()` returns, and `Except.ok s` means the handler reached its
single `save_settings` call and persisted `s`, while `Except.error e`
means an exception aborted the handler before any write.  Validation runs
first: a stripped password that is not exactly 4 digits raises a 400, a
wrong password raises a 403.  (Accessing `old.security.admin_password`
when the stored document has no security section raises `AttributeError`
in Python, i.e. a 500; that path is modelled by a 500-status error.)  The
stages then mirror the handler's statement order: secret sentinels,
prompt/timeout defaulting, security-section defaulting, new-password
handling. -/
def update_settings (old : AppSettings) (req : UpdateSettingsRequest) :
    Except HttpError AppSettings :=
  let password := pyStrip (req.password.getD "")
  if ¬ (pyIsDigit password = true ∧ password.length = 4) then
    .error { status := 400, detail := "密码必须为4位数字" }
  else
    match old.security with
    | none => .error { status := 500, detail := "AttributeError" }
    | some oldSec =>
      if password ≠ oldSec.admin_password then
        .error { status := 403, detail := "密码错误" }
      else
        applyNewPassword oldSec req.new_password
          (applySecurityDefault (applyPromptDefaults (applySecretSentinels old req.settings)))

/-- The settings store after a `PUT /api/settings` request: the persisted
document on success, the untouched old document when the handler raised
(the handler's only write is its final `save_settings` call). -/
def storeAfter (old : AppSettings) (req : UpdateSettingsRequest) : AppSettings :=
  match update_settings old req with
  | .ok s => s
  | .error _ => old

/-! ## Helper lemmas -/

/-- Total joined length of lines under a one-character separator: each line
contributes its length plus one. -/
def joinWeight (l : List String) : Nat := (l.map (fun s => s.length + 1)).sum

lemma pyJoin_newline_length :
    ∀ l : List String, l ≠ [] → (pyJoin "\n" l).length + 1 = joinWeight l
  | [], h => absurd rfl h
  | [p], _ => by simp [pyJoin, joinWeight]
  | p :: q :: rest, _ => by
    have ih := pyJoin_newline_length (q :: rest) (by simp)
    have hstep : pyJoin "\n" (p :: q :: rest) = p ++ "\n" ++ pyJoin "\n" (q :: rest) := rfl
    rw [hstep, String.length_append, String.length_append]
    have hn : ("\n" : String).length = 1 := rfl
    simp only [joinWeight, List.map_cons, List.sum_cons] at ih ⊢
    omega

lemma joinWeight_pos {l : List String} (h : l ≠ []) : 1 ≤ joinWeight l := by
  cases l with
  | nil => exact absurd rfl h
  | cons x xs => simp only [joinWeight, List.map_cons, List.sum_cons]; omega

lemma truncateLoop_weight (maxLen : Nat) :
    ∀ (lines : List String) (cur : Nat),
      truncateLoop maxLen lines cur = [] ∨
      cur + joinWeight (truncateLoop maxLen lines cur) ≤ maxLen - 3
  | [], _ => Or.inl rfl
  | line :: rest, cur => by
    by_cases h : cur + line.length + 1 > maxLen - 3
    · exact Or.inl (by simp [truncateLoop, h])
    · right
      have hrw : truncateLoop maxLen (line :: rest) cur
          = line :: truncateLoop maxLen rest (cur + line.length + 1) := by
        simp [truncateLoop, h]
      rw [hrw]
      rcases truncateLoop_weight maxLen rest (cur + line.length + 1) with h2 | h2
      · rw [h2]
        simp only [joinWeight, List.map_cons, List.map_nil, List.sum_cons, List.sum_nil]
        omega
      · simp only [joinWeight, List.map_cons, List.sum_cons] at h2 ⊢
        omega

lemma truncate_text_of_le {text : String} {max_length : Nat}
    (h : text.length ≤ max_length) : truncate_text text max_length = text := by
  simp [truncate_text, h]

lemma truncate_text_of_lt {text : String} {max_length : Nat}
    (h : max_length < text.length) :
    truncate_text text max_length =
      pyJoin "\n" (truncateLoop max_length (truncLines text) 0) ++ "..." := by
  have hfit : ¬ text.length ≤ max_length := by omega
  by_cases hne : truncateLoop max_length (truncLines text) 0 = []
  · have h0 : (pyJoin "\n" (truncateLoop max_length (truncLines text) 0)).length = 0 := by
      rw [hne]; rfl
    simp only [truncate_text, if_neg hfit]
    rw [if_pos (by omega)]
  · have hw := (truncateLoop_weight max_length (truncLines text) 0).resolve_left hne
    have hlen := pyJoin_newline_length _ hne
    simp only [truncate_text, if_neg hfit]
    rw [if_pos (by omega)]

/-- Shared bound: the truncated text never exceeds `max_length` characters
provided `max_length ≥ 3` (room for the ellipsis marker). -/
lemma truncate_text_length_le (text : String) (max_length : Nat)
    (h : 3 ≤ max_length) : (truncate_text text max_length).length ≤ max_length := by
  by_cases hfit : text.length ≤ max_length
  · rw [truncate_text_of_le hfit]; omega
  · have hlt : max_length < text.length := by omega
    rw [truncate_text_of_lt hlt, String.length_append]
    have h3 : ("..." : String).length = 3 := rfl
    by_cases hne : truncateLoop max_length (truncLines text) 0 = []
    · have h0 : (pyJoin "\n" (truncateLoop max_length (truncLines text) 0)).length = 0 := by
        rw [hne]; rfl
      omega
    · have hw := (truncateLoop_weight max_length (truncLines text) 0).resolve_left hne
      have hlen := pyJoin_newline_length _ hne
      omega

lemma mem_dedupFirstAux (a : String) :
    ∀ (l seen : List String), a ∈ dedupFirstAux seen l ↔ (a ∈ l ∧ a ∉ seen)
  | [], seen => by simp [dedupFirstAux]
  | x :: xs, seen => by
    simp only [dedupFirstAux]
    by_cases hx : x ∈ seen
    · rw [if_pos hx, mem_dedupFirstAux a xs seen]
      constructor
      · rintro ⟨h1, h2⟩
        exact ⟨List.mem_cons_of_mem _ h1, h2⟩
      · rintro ⟨h1, h2⟩
        rcases List.mem_cons.mp h1 with rfl | h1
        · exact absurd hx h2
        · exact ⟨h1, h2⟩
    · rw [if_neg hx]
      by_cases hax : a = x
      · subst hax
        simp [List.mem_cons, hx]
      · simp only [List.mem_cons, mem_dedupFirstAux a xs (x :: seen)]
        constructor
        · rintro (h | ⟨h1, h2⟩)
          · exact absurd h hax
          · exact ⟨Or.inr h1, fun hs => h2 (Or.inr hs)⟩
        · rintro ⟨h1, h2⟩
          rcases h1 with rfl | h1
          · exact absurd rfl hax
          · refine Or.inr ⟨h1, fun hs => ?_⟩
            rcases hs with rfl | hs
            · exact hax rfl
            · exact h2 hs

lemma nodup_dedupFirstAux : ∀ (l seen : List String), (dedupFirstAux seen l).Nodup
  | [], _ => by simp [dedupFirstAux]
  | x :: xs, seen => by
    simp only [dedupFirstAux]
    by_cases hx : x ∈ seen
    · rw [if_pos hx]
      exact nodup_dedupFirstAux xs seen
    · rw [if_neg hx]
      refine List.nodup_cons.mpr ⟨?_, nodup_dedupFirstAux xs (x :: seen)⟩
      intro hmem
      exact ((mem_dedupFirstAux x xs (x :: seen)).mp hmem).2 (List.mem_cons_self x seen)

lemma sublist_dedupFirstAux : ∀ (l seen : List String), (dedupFirstAux seen l).Sublist l
  | [], _ => by simp [dedupFirstAux]
  | x :: xs, seen => by
    simp only [dedupFirstAux]
    by_cases hx : x ∈ seen
    · rw [if_pos hx]
      exact (sublist_dedupFirstAux xs seen).cons x
    · rw [if_neg hx]
      exact (sublist_dedupFirstAux xs (x :: seen)).cons₂ x

lemma normalizeKeywords_mem_ne {raw : List String} {kw : String}
    (h : kw ∈ normalizeKeywords raw) : kw ≠ "" := by
  simp only [normalizeKeywords, List.mem_filter, decide_eq_true_eq] at h
  exact h.2

lemma maskApiKey_parts (s : AppSettings) :
    (maskApiKey s).telegram = s.telegram ∧ (maskApiKey s).wecom = s.wecom
  ∧ (maskApiKey s).security = s.security
  ∧ (s.ai.api_key ≠ "" → (maskApiKey s).ai.api_key = "***") := by
  unfold maskApiKey
  by_cases h : s.ai.api_key ≠ ""
  · rw [if_pos h]
    exact ⟨rfl, rfl, rfl, fun _ => rfl⟩
  · rw [if_neg h]
    exact ⟨rfl, rfl, rfl, fun hne => absurd hne h⟩

lemma maskBotToken_parts (s : AppSettings) :
    (maskBotToken s).ai = s.ai ∧ (maskBotToken s).wecom = s.wecom
  ∧ (maskBotToken s).security = s.security
  ∧ (s.telegram.bot_token ≠ "" → (maskBotToken s).telegram.bot_token = "***") := by
  unfold maskBotToken
  by_cases h : s.telegram.bot_token ≠ ""
  · rw [if_pos h]
    exact ⟨rfl, rfl, rfl, fun _ => rfl⟩
  · rw [if_neg h]
    exact ⟨rfl, rfl, rfl, fun hne => absurd hne h⟩

lemma maskWebhookKey_parts (s : AppSettings) :
    (maskWebhookKey s).ai = s.ai ∧ (maskWebhookKey s).telegram = s.telegram
  ∧ (maskWebhookKey s).security = s.security
  ∧ (s.wecom.webhook_key ≠ "" → (maskWebhookKey s).wecom.webhook_key = "***") := by
  unfold maskWebhookKey
  by_cases h : s.wecom.webhook_key ≠ ""
  · rw [if_pos h]
    exact ⟨rfl, rfl, rfl, fun _ => rfl⟩
  · rw [if_neg h]
    exact ⟨rfl, rfl, rfl, fun hne => absurd hne h⟩

lemma maskAdminPassword_parts (s : AppSettings) :
    (maskAdminPassword s).ai = s.ai ∧ (maskAdminPassword s).telegram = s.telegram
  ∧ (maskAdminPassword s).wecom = s.wecom
  ∧ (∀ sec, (maskAdminPassword s).security = some sec → sec.admin_password = "") := by
  rcases hs : s.security with _ | a
  · simp only [maskAdminPassword, hs]
    exact ⟨by trivial, by trivial, by trivial, fun sec hsec => by cases hsec⟩
  · simp only [maskAdminPassword, hs]
    by_cases ha : a.admin_password ≠ ""
    · rw [if_pos ha]
      refine ⟨by trivial, by trivial, by trivial, fun sec hsec => ?_⟩
      obtain rfl : ({ admin_password := "" } : Security) = sec := Option.some.inj hsec
      rfl
    · rw [if_neg ha]
      push_neg at ha
      refine ⟨by trivial, by trivial, by trivial, fun sec hsec => ?_⟩
      rw [hs] at hsec
      obtain rfl : a = sec := Option.some.inj hsec
      exact ha

lemma defaultAiSystemPrompt_parts (s : AppSettings) :
    (defaultAiSystemPrompt s).ai.api_key = s.ai.api_key
  ∧ (defaultAiSystemPrompt s).telegram = s.telegram
  ∧ (defaultAiSystemPrompt s).wecom = s.wecom
  ∧ (defaultAiSystemPrompt s).security = s.security := by
  unfold defaultAiSystemPrompt
  split <;> exact ⟨rfl, rfl, rfl, rfl⟩

lemma defaultAiUserPrompt_parts (s : AppSettings) :
    (defaultAiUserPrompt s).ai.api_key = s.ai.api_key
  ∧ (defaultAiUserPrompt s).telegram = s.telegram
  ∧ (defaultAiUserPrompt s).wecom = s.wecom
  ∧ (defaultAiUserPrompt s).security = s.security := by
  unfold defaultAiUserPrompt
  split <;> exact ⟨rfl, rfl, rfl, rfl⟩

lemma defaultAiTimeout_parts (s : AppSettings) :
    (defaultAiTimeout s).ai.api_key = s.ai.api_key
  ∧ (defaultAiTimeout s).telegram = s.telegram
  ∧ (defaultAiTimeout s).wecom = s.wecom
  ∧ (defaultAiTimeout s).security = s.security := by
  unfold defaultAiTimeout
  split <;> exact ⟨rfl, rfl, rfl, rfl⟩

lemma defaultReportSystemPrompt_parts (s : AppSettings) :
    (defaultReportSystemPrompt s).ai = s.ai
  ∧ (defaultReportSystemPrompt s).telegram = s.telegram
  ∧ (defaultReportSystemPrompt s).wecom = s.wecom
  ∧ (defaultReportSystemPrompt s).security = s.security := by
  unfold defaultReportSystemPrompt
  split <;> exact ⟨rfl, rfl, rfl, rfl⟩

lemma defaultReportUserPrompt_parts (s : AppSettings) :
    (defaultReportUserPrompt s).ai = s.ai
  ∧ (defaultReportUserPrompt s).telegram = s.telegram
  ∧ (defaultReportUserPrompt s).wecom = s.wecom
  ∧ (defaultReportUserPrompt s).security = s.security := by
  unfold defaultReportUserPrompt
  split <;> exact ⟨rfl, rfl, rfl, rfl⟩

lemma defaultReportTimeout_parts (s : AppSettings) :
    (defaultReportTimeout s).ai = s.ai
  ∧ (defaultReportTimeout s).telegram = s.telegram
  ∧ (defaultReportTimeout s).wecom = s.wecom
  ∧ (defaultReportTimeout s).security = s.security := by
  unfold defaultReportTimeout
  split <;> exact ⟨rfl, rfl, rfl, rfl⟩

lemma applyPromptDefaults_parts (s : AppSettings) :
    (applyPromptDefaults s).ai.api_key = s.ai.api_key
  ∧ (applyPromptDefaults s).telegram = s.telegram
  ∧ (applyPromptDefaults s).wecom = s.wecom
  ∧ (applyPromptDefaults s).security = s.security := by
  unfold applyPromptDefaults
  obtain ⟨a1, b1, c1, d1⟩ := defaultAiSystemPrompt_parts s
  obtain ⟨a2, b2, c2, d2⟩ := defaultAiUserPrompt_parts (defaultAiSystemPrompt s)
  obtain ⟨a3, b3, c3, d3⟩ := defaultAiTimeout_parts
    (defaultAiUserPrompt (defaultAiSystemPrompt s))
  obtain ⟨a4, b4, c4, d4⟩ := defaultReportSystemPrompt_parts
    (defaultAiTimeout (defaultAiUserPrompt (defaultAiSystemPrompt s)))
  obtain ⟨a5, b5, c5, d5⟩ := defaultReportUserPrompt_parts
    (defaultReportSystemPrompt (defaultAiTimeout (defaultAiUserPrompt
      (defaultAiSystemPrompt s))))
  obtain ⟨a6, b6, c6, d6⟩ := defaultReportTimeout_parts
    (defaultReportUserPrompt (defaultReportSystemPrompt (defaultAiTimeout
      (defaultAiUserPrompt (defaultAiSystemPrompt s)))))
  refine ⟨?_, ?_, ?_, ?_⟩
  · rw [a6, a5, a4, a3, a2, a1]
  · rw [b6, b5, b4, b3, b2, b1]
  · rw [c6, c5, c4, c3, c2, c1]
  · rw [d6, d5, d4, d3, d2, d1]

lemma sentinelApiKey_parts (old ns : AppSettings) :
    (sentinelApiKey old ns).telegram = ns.telegram
  ∧ (sentinelApiKey old ns).wecom = ns.wecom
  ∧ (sentinelApiKey old ns).security = ns.security
  ∧ (ns.ai.api_key = "***" → (sentinelApiKey old ns).ai.api_key = old.ai.api_key) := by
  unfold sentinelApiKey
  by_cases h : ns.ai.api_key = "***"
  · rw [if_pos h]
    exact ⟨rfl, rfl, rfl, fun _ => rfl⟩
  · rw [if_neg h]
    exact ⟨rfl, rfl, rfl, fun he => absurd he h⟩

lemma sentinelBotToken_parts (old ns : AppSettings) :
    (sentinelBotToken old ns).ai = ns.ai
  ∧ (sentinelBotToken old ns).wecom = ns.wecom
  ∧ (sentinelBotToken old ns).security = ns.security
  ∧ (ns.telegram.bot_token = "***" →
      (sentinelBotToken old ns).telegram.bot_token = old.telegram.bot_token) := by
  unfold sentinelBotToken
  by_cases h : ns.telegram.bot_token = "***"
  · rw [if_pos h]
    exact ⟨rfl, rfl, rfl, fun _ => rfl⟩
  · rw [if_neg h]
    exact ⟨rfl, rfl, rfl, fun he => absurd he h⟩

lemma sentinelWebhookKey_parts (old ns : AppSettings) :
    (sentinelWebhookKey old ns).ai = ns.ai
  ∧ (sentinelWebhookKey old ns).telegram = ns.telegram
  ∧ (sentinelWebhookKey old ns).security = ns.security
  ∧ (ns.wecom.webhook_key = "***" →
      (sentinelWebhookKey old ns).wecom.webhook_key = old.wecom.webhook_key) := by
  unfold sentinelWebhookKey
  by_cases h : ns.wecom.webhook_key = "***"
  · rw [if_pos h]
    exact ⟨rfl, rfl, rfl, fun _ => rfl⟩
  · rw [if_neg h]
    exact ⟨rfl, rfl, rfl, fun he => absurd he h⟩

lemma applySecurityDefault_parts (ns : AppSettings) :
    (applySecurityDefault ns).ai = ns.ai
  ∧ (applySecurityDefault ns).telegram = ns.telegram
  ∧ (applySecurityDefault ns).wecom = ns.wecom := by
  unfold applySecurityDefault
  split <;> exact ⟨rfl, rfl, rfl⟩

lemma applyNewPassword_ok (oldSec : Security) (np : Option String) (ns new : AppSettings)
    (h : applyNewPassword oldSec np ns = .ok new) :
    new.ai = ns.ai ∧ new.telegram = ns.telegram ∧ new.wecom = ns.wecom
  ∧ (pyStrip (np.getD "") = "" →
      new.security = some { admin_password := oldSec.admin_password })
  ∧ (pyStrip (np.getD "") ≠ "" →
      new.security = some { admin_password := pyStrip (np.getD "") }) := by
  simp only [applyNewPassword] at h
  by_cases hnp : pyStrip (np.getD "") ≠ ""
  · rw [if_pos hnp] at h
    by_cases hv : ¬ (pyIsDigit (pyStrip (np.getD "")) = true
        ∧ (pyStrip (np.getD "")).length = 4)
    · rw [if_pos hv] at h
      cases h
    · rw [if_neg hv] at h
      obtain rfl := Except.ok.inj h
      exact ⟨rfl, rfl, rfl, fun he => absurd he hnp, fun _ => rfl⟩
  · rw [if_neg hnp] at h
    push_neg at hnp
    obtain rfl := Except.ok.inj h
    exact ⟨rfl, rfl, rfl, fun _ => rfl, fun hne => absurd hnp hne⟩

lemma update_settings_ok_inv (old : AppSettings) (req : UpdateSettingsRequest)
    (new : AppSettings) (h : update_settings old req = .ok new) :
    ∃ oldSec, old.security = some oldSec ∧
      applyNewPassword oldSec req.new_password
        (applySecurityDefault (applyPromptDefaults
          (applySecretSentinels old req.settings))) = .ok new := by
  rcases hsec : old.security with _ | oldSec
  · simp only [update_settings, hsec] at h
    split at h
    · cases h
    · cases h
  · simp only [update_settings, hsec] at h
    split at h
    · cases h
    · split at h
      · cases h
      · exact ⟨oldSec, rfl, h⟩

lemma update_settings_ok_of (old : AppSettings) (req : UpdateSettingsRequest)
    (oldSec : Security) (hsec : old.security = some oldSec)
    (hd : pyIsDigit (pyStrip (req.password.getD "")) = true)
    (hl : (pyStrip (req.password.getD "")).length = 4)
    (hpw : pyStrip (req.password.getD "") = oldSec.admin_password) :
    update_settings old req
      = applyNewPassword oldSec req.new_password
          (applySecurityDefault (applyPromptDefaults
            (applySecretSentinels old req.settings))) := by
  simp only [update_settings, hsec]
  rw [if_neg (not_not_intro ⟨hd, hl⟩), if_neg (not_not_intro hpw)]

/-! ## Claim theorems -/

/-- Claim C3, amended: `truncate_text` returns `text` unchanged when it
fits within `max_length`; otherwise it splits on newlines, greedily
accumulates whole lines while the running length (line length plus one for
the newline) stays within `max_length - 3`, joins them and appends the
three-character ellipsis marker, so the truncated result always ends with
`"..."`; and the result never exceeds `max_length` characters provided
`max_length ≥ 3` (for `max_length < 3` an over-long input yields the bare
3-character marker, which exceeds `max_length`). -/
theorem truncate_text_spec (text : String) (max_length : Nat) :
    (text.length ≤ max_length → truncate_text text max_length = text)
  ∧ (max_length < text.length →
      truncate_text text max_length
        = pyJoin "\n" (truncateLoop max_length (truncLines text) 0) ++ "...")
  ∧ (max_length < text.length → ∃ p, truncate_text text max_length = p ++ "...")
  ∧ (3 ≤ max_length → (truncate_text text max_length).length ≤ max_length) :=
  ⟨fun h => truncate_text_of_le h,
   fun h => truncate_text_of_lt h,
   fun h => ⟨_, truncate_text_of_lt h⟩,
   fun h => truncate_text_length_le text max_length h⟩

/-- Claim C3 counterexample: for `max_length = 1` (positive, as the claim
demands) and the two-character input `"ab"`, the result is the bare
ellipsis marker `"..."`, whose 3 characters exceed `max_length`. -/
theorem truncate_text_exceeds_max_length :
    truncate_text "ab" 1 = "..." ∧ ¬ (truncate_text "ab" 1).length ≤ 1 := by
  decide

/-- Witness for `truncate_text_spec` at concrete inputs. -/
theorem truncate_text_spec_witness :
    truncate_text "abc" 5 = "abc"
  ∧ (∃ p, truncate_text "a\nbb\ncc\ndd" 9 = p ++ "...")
  ∧ (truncate_text "a\nbb\ncc\ndd" 9).length ≤ 9 :=
  ⟨(truncate_text_spec "abc" 5).1 (by decide),
   (truncate_text_spec "a\nbb\ncc\ndd" 9).2.2.1 (by decide),
   (truncate_text_spec "a\nbb\ncc\ndd" 9).2.2.2 (by decide)⟩

/-- Claim C4: `send_message` returns `false` (it never raises: the model
is a total function covering every raising path) when the webhook key is
empty, when the HTTP request raises, when the response status is not a
2xx success (`raise_for_status`), and when the response body's `errcode`
is non-zero; it returns `true` exactly when the key is non-empty, the
HTTP call succeeds with a 2xx status, and the parsed body carries
`errcode = 0`. -/
theorem send_message_spec (key : String) (resp : WeComResponse) :
    (key = "" → send_message key resp = false)
  ∧ send_message key WeComResponse.transportError = false
  ∧ (∀ s b, s < 200 ∨ 300 ≤ s → send_message key (.response s b) = false)
  ∧ (∀ s e, e ≠ 0 → send_message key (.response s (some (some e))) = false)
  ∧ (send_message key resp = true ↔
      key ≠ "" ∧ ∃ s, 200 ≤ s ∧ s < 300 ∧ resp = .response s (some (some 0))) := by
  refine ⟨fun hk => by simp [send_message, hk], ?_, ?_, ?_, ?_, ?_⟩
  · by_cases hk : key = "" <;> simp [send_message, hk]
  · intro s b hs
    by_cases hk : key = ""
    · simp [send_message, hk]
    · simp [send_message, hk, hs]
  · intro s e he
    by_cases hk : key = ""
    · simp [send_message, hk]
    · by_cases hs : s < 200 ∨ 300 ≤ s
      · simp [send_message, hk, hs]
      · simp [send_message, hk, hs, he]
  · intro htrue
    by_cases hk : key = ""
    · simp [send_message, hk] at htrue
    · refine ⟨hk, ?_⟩
      cases resp with
      | transportError => simp [send_message, hk] at htrue
      | response s b =>
        by_cases hs : s < 200 ∨ 300 ≤ s
        · simp [send_message, hk, hs] at htrue
        · cases b with
          | none => simp [send_message, hk, hs] at htrue
          | some ec =>
            cases ec with
            | none => simp [send_message, hk, hs, missing_errcode_default] at htrue
            | some e =>
              by_cases he : e = 0
              · exact ⟨s, by omega, by omega, by rw [he]⟩
              · simp [send_message, hk, hs, he] at htrue
  · rintro ⟨hk, s, h1, h2, rfl⟩
    have hs : ¬ (s < 200 ∨ 300 ≤ s) := by omega
    simp [send_message, hk, hs]

/-- Witness for `send_message_spec` at concrete inputs: empty key, failing
status, non-zero `errcode`, and the success case. -/
theorem send_message_spec_witness :
    send_message "" (.response 200 (some (some 0))) = false
  ∧ send_message "k" WeComResponse.transportError = false
  ∧ send_message "k" (.response 500 (some (some 0))) = false
  ∧ send_message "k" (.response 200 (some (some 93))) = false
  ∧ send_message "k" (.response 200 (some (some 0))) = true :=
  ⟨(send_message_spec "" (.response 200 (some (some 0)))).1 rfl,
   (send_message_spec "k" WeComResponse.transportError).2.1,
   (send_message_spec "k" WeComResponse.transportError).2.2.1 500 (some (some 0)) (by omega),
   (send_message_spec "k" WeComResponse.transportError).2.2.2.1 200 93 (by decide),
   ((send_message_spec "k" (.response 200 (some (some 0)))).2.2.2.2).mpr
     ⟨by decide, 200, by omega, by omega, rfl⟩⟩

/-- Claim C10: an HTTP-successful WeCom response whose JSON body has no
`errcode` field is read through `data.get("errcode", -1)`, so the default
`-1` (non-zero) applies and `send_message` returns `false` — for every
key and status, a body without an explicit `errcode` is never a
success. -/
theorem send_message_missing_errcode (key : String) (s : Nat) :
    send_message key (WeComResponse.response s (some none)) = false
  ∧ missing_errcode_default = -1 ∧ missing_errcode_default ≠ 0 := by
  refine ⟨?_, rfl, by decide⟩
  by_cases hk : key = ""
  · simp [send_message, hk]
  · by_cases hs : s < 200 ∨ 300 ≤ s
    · simp [send_message, hk, hs]
    · simp [send_message, hk, hs, missing_errcode_default]

/-- Claim C6: for every current time, `_next_top_of_hour` returns the top
of the next hour in the UTC+8 reference zone — the result is the Beijing
hour floor plus one hour, is hour-aligned in Beijing time, lies strictly
in the future and at most one hour ahead, and on an exact hour boundary it
is exactly one hour later; concretely, Beijing 14:00:00 (21600 UTC on the
epoch day) maps to 15:00:00 (25200) and 14:30:00 (23400) also maps to
15:00:00. -/
theorem next_top_of_hour_spec (now : Nat) :
    next_top_of_hour now + beijingOffset = (now + beijingOffset) / 3600 * 3600 + 3600
  ∧ (next_top_of_hour now + beijingOffset) % 3600 = 0
  ∧ now < next_top_of_hour now
  ∧ next_top_of_hour now ≤ now + 3600
  ∧ ((now + beijingOffset) % 3600 = 0 → next_top_of_hour now = now + 3600)
  ∧ next_top_of_hour 21600 = 25200
  ∧ next_top_of_hour 23400 = 25200 := by
  have hchar : next_top_of_hour now
      = (now + beijingOffset) / 3600 * 3600 + 3600 - beijingOffset := by
    simp only [next_top_of_hour]
    rw [if_pos (Nat.div_mul_le_self _ _)]
  simp only [beijingOffset] at hchar ⊢
  refine ⟨?_, ?_, ?_, ?_, fun h => ?_, by decide, by decide⟩ <;> rw [hchar] <;> omega

/-- Witness for `next_top_of_hour_spec`: at the exact boundary Beijing
14:00:00, the next run is exactly one hour later. -/
theorem next_top_of_hour_spec_witness : next_top_of_hour 21600 = 21600 + 3600 :=
  (next_top_of_hour_spec 21600).2.2.2.2.1 (by decide)

/-- Claim C7: `_next_midnight` parses `daily_report_time`, clamping a
parseable hour into [0,23] and minute into [0,59] and falling back to
00:00 on an unparsable string; the next run is at that hour:minute on the
Beijing wall clock, today if the current Beijing time is strictly before
today's target, otherwise the same time tomorrow — always strictly in the
future and at most 24 hours ahead. -/
theorem next_midnight_spec (now : Nat) (rt : String) :
    (parseReportTime rt).1 ≤ 23
  ∧ (parseReportTime rt).2 ≤ 59
  ∧ (reportTimeParts rt = none → parseReportTime rt = (0, 0))
  ∧ (∀ h m : Int, reportTimeParts rt = some (h, m) →
      parseReportTime rt = ((max 0 (min 23 h)).toNat, (max 0 (min 59 m)).toNat))
  ∧ (next_midnight now rt + beijingOffset) % 86400
      = (parseReportTime rt).1 * 3600 + (parseReportTime rt).2 * 60
  ∧ now < next_midnight now rt
  ∧ next_midnight now rt ≤ now + 86400
  ∧ ((now + beijingOffset) / 86400 * 86400 + (parseReportTime rt).1 * 3600
       + (parseReportTime rt).2 * 60 ≤ now + beijingOffset →
      next_midnight now rt + beijingOffset
        = (now + beijingOffset) / 86400 * 86400 + (parseReportTime rt).1 * 3600
          + (parseReportTime rt).2 * 60 + 86400)
  ∧ (now + beijingOffset < (now + beijingOffset) / 86400 * 86400
       + (parseReportTime rt).1 * 3600 + (parseReportTime rt).2 * 60 →
      next_midnight now rt + beijingOffset
        = (now + beijingOffset) / 86400 * 86400 + (parseReportTime rt).1 * 3600
          + (parseReportTime rt).2 * 60) := by
  obtain ⟨h1, h2⟩ : (parseReportTime rt).1 ≤ 23 ∧ (parseReportTime rt).2 ≤ 59 := by
    rcases hp : reportTimeParts rt with _ | ⟨h, m⟩ <;> simp [parseReportTime, hp]
  have hchar : next_midnight now rt
      = (if (now + beijingOffset) / 86400 * 86400 + (parseReportTime rt).1 * 3600
            + (parseReportTime rt).2 * 60 ≤ now + beijingOffset
         then (now + beijingOffset) / 86400 * 86400 + (parseReportTime rt).1 * 3600
            + (parseReportTime rt).2 * 60 + 86400
         else (now + beijingOffset) / 86400 * 86400 + (parseReportTime rt).1 * 3600
            + (parseReportTime rt).2 * 60) - beijingOffset := by
    simp only [next_midnight]
  refine ⟨h1, h2, ?_, ?_, ?_, ?_, ?_, ?_, ?_⟩
  · intro hp; simp [parseReportTime, hp]
  · intro h m hp; simp [parseReportTime, hp]
  · rw [hchar]; simp only [beijingOffset] at h1 h2 ⊢; split <;> omega
  · rw [hchar]; simp only [beijingOffset] at h1 h2 ⊢; split <;> omega
  · rw [hchar]; simp only [beijingOffset] at h1 h2 ⊢; split <;> omega
  · intro hc; rw [hchar]; simp only [beijingOffset] at h1 h2 hc ⊢
    rw [if_pos hc]; omega
  · intro hc; rw [hchar]; simp only [beijingOffset] at h1 h2 hc ⊢
    rw [if_neg (by omega)]; omega

/-- Witness for `next_midnight_spec`: with `daily_report_time = "09:30"`,
Beijing 09:00 (3600 UTC) yields 09:30 today and Beijing 10:00 (7200 UTC)
yields 09:30 tomorrow; `"abc"` is unparsable and falls back to 00:00. -/
theorem next_midnight_spec_witness :
    parseReportTime "abc" = (0, 0)
  ∧ parseReportTime "09:30"
      = ((max 0 (min 23 (9 : Int))).toNat, (max 0 (min 59 (30 : Int))).toNat)
  ∧ next_midnight 3600 "09:30" + beijingOffset
      = (3600 + beijingOffset) / 86400 * 86400 + (parseReportTime "09:30").1 * 3600
        + (parseReportTime "09:30").2 * 60
  ∧ next_midnight 7200 "09:30" + beijingOffset
      = (7200 + beijingOffset) / 86400 * 86400 + (parseReportTime "09:30").1 * 3600
        + (parseReportTime "09:30").2 * 60 + 86400 :=
  ⟨(next_midnight_spec 0 "abc").2.2.1 (by decide),
   (next_midnight_spec 0 "09:30").2.2.2.1 9 30 (by decide),
   (next_midnight_spec 3600 "09:30").2.2.2.2.2.2.2.2 (by decide),
   (next_midnight_spec 7200 "09:30").2.2.2.2.2.2.2.1 (by decide)⟩

/-- Claim C5: with a non-empty normalised filter-keyword list, an entry
matches iff some keyword is a literal substring of the haystack;
`matched_keywords` contains exactly the matching keywords, without
duplicates and in first-seen configured order (a sublist of the term
list); an empty keyword list makes every entry match; and in the fetch
pipeline a matching entry is eligible for AI summarisation and pushes,
while a non-matching entry uses the deterministic fallback directly (AI
not invoked) and is stored (insert permitting) but never pushed. -/
theorem keyword_filtering_spec (raw : List String) (hay : String)
    (terms : List String) (hterms : terms = normalizeKeywords raw)
    (ai_present ai_success insert_ok tg_present tg_push_articles
      wecom_present wecom_push_articles : Bool) :
    (terms ≠ [] →
      (keywordsMatchedOf terms hay = true ↔ ∃ kw ∈ terms, pyInStr kw hay = true))
  ∧ (∀ kw, kw ∈ matchedKeywordsOf terms hay ↔ kw ∈ terms ∧ pyInStr kw hay = true)
  ∧ (matchedKeywordsOf terms hay).Nodup
  ∧ (matchedKeywordsOf terms hay).Sublist terms
  ∧ (terms = [] → keywordsMatchedOf terms hay = true)
  ∧ ((processEntry terms hay ai_present ai_success insert_ok tg_present
        tg_push_articles wecom_present wecom_push_articles).matched_keywords
      = matchedKeywordsOf terms hay)
  ∧ ((processEntry terms hay ai_present ai_success insert_ok tg_present
        tg_push_articles wecom_present wecom_push_articles).keywords_matched
      = keywordsMatchedOf terms hay)
  ∧ ((processEntry terms hay ai_present ai_success insert_ok tg_present
        tg_push_articles wecom_present wecom_push_articles).ai_invoked
      = (ai_present && keywordsMatchedOf terms hay))
  ∧ (keywordsMatchedOf terms hay = false →
        (processEntry terms hay ai_present ai_success insert_ok tg_present
          tg_push_articles wecom_present wecom_push_articles).used_fallback = true
      ∧ (processEntry terms hay ai_present ai_success insert_ok tg_present
          tg_push_articles wecom_present wecom_push_articles).pushed_telegram = false
      ∧ (processEntry terms hay ai_present ai_success insert_ok tg_present
          tg_push_articles wecom_present wecom_push_articles).pushed_wecom = false
      ∧ (processEntry terms hay ai_present ai_success insert_ok tg_present
          tg_push_articles wecom_present wecom_push_articles).stored = insert_ok)
  ∧ (keywordsMatchedOf terms hay = true →
        (processEntry terms hay ai_present ai_success insert_ok tg_present
          tg_push_articles wecom_present wecom_push_articles).ai_invoked = ai_present
      ∧ (processEntry terms hay ai_present ai_success insert_ok tg_present
          tg_push_articles wecom_present wecom_push_articles).pushed_telegram
          = (insert_ok && tg_present && tg_push_articles)
      ∧ (processEntry terms hay ai_present ai_success insert_ok tg_present
          tg_push_articles wecom_present wecom_push_articles).pushed_wecom
          = (insert_ok && wecom_present && wecom_push_articles)) := by
  have hmem : ∀ kw, kw ∈ matchedKeywordsOf terms hay ↔
      kw ∈ terms ∧ pyInStr kw hay = true := by
    intro kw
    rw [matchedKeywordsOf, dedupFirst, mem_dedupFirstAux]
    simp only [List.mem_filter, Bool.and_eq_true, decide_eq_true_eq, List.not_mem_nil,
      not_false_iff, and_true]
    constructor
    · rintro ⟨h1, _, h3⟩
      exact ⟨h1, h3⟩
    · intro h
      exact ⟨h.1, normalizeKeywords_mem_ne (hterms ▸ h.1), h.2⟩
  refine ⟨?_, hmem, nodup_dedupFirstAux _ _,
    (sublist_dedupFirstAux _ _).trans (List.filter_sublist terms), ?_, rfl, rfl, rfl,
    ?_, ?_⟩
  · intro hne
    have h0 : ¬ (terms.isEmpty = true) := by
      simpa [List.isEmpty_iff] using hne
    rw [keywordsMatchedOf, if_neg h0, Bool.not_eq_true']
    constructor
    · intro hm
      have hmne : matchedKeywordsOf terms hay ≠ [] := by
        intro hnil
        rw [hnil] at hm
        simp at hm
      rcases List.exists_mem_of_ne_nil _ hmne with ⟨kw, hkw⟩
      exact ⟨kw, ((hmem kw).mp hkw).1, ((hmem kw).mp hkw).2⟩
    · rintro ⟨kw, h1, h2⟩
      have hin : kw ∈ matchedKeywordsOf terms hay := (hmem kw).mpr ⟨h1, h2⟩
      cases hmatch : matchedKeywordsOf terms hay with
      | nil => rw [hmatch] at hin; simp at hin
      | cons y ys => rfl
  · intro h
    rw [h]
    rfl
  · intro hkm
    refine ⟨?_, ?_, ?_, rfl⟩ <;> simp [processEntry, hkm]
  · intro hkm
    refine ⟨?_, ?_, ?_⟩ <;> simp [processEntry, hkm]

/-- Witness for `keyword_filtering_spec` on the spec's own example: the
haystack contains "alpha" twice and "beta" once, `matched_keywords` is
`["alpha", "beta"]`, and the entry is eligible for AI summarisation. -/
theorem keyword_filtering_spec_witness :
    (keywordsMatchedOf ["alpha", "beta"] "xx alpha yy alpha zz beta" = true ↔
      ∃ kw ∈ (["alpha", "beta"] : List String),
        pyInStr kw "xx alpha yy alpha zz beta" = true)
  ∧ matchedKeywordsOf ["alpha", "beta"] "xx alpha yy alpha zz beta" = ["alpha", "beta"]
  ∧ keywordsMatchedOf ([] : List String) "anything" = true
  ∧ (processEntry ["alpha", "beta"] "xx alpha yy alpha zz beta"
      true true true true true true true).ai_invoked = true :=
  ⟨(keyword_filtering_spec ["alpha", "beta"] "xx alpha yy alpha zz beta" ["alpha", "beta"]
      (by decide) true true true true true true true).1 (by decide),
   by decide,
   (keyword_filtering_spec [] "anything" [] rfl
      true true true true true true true).2.2.2.2.1 rfl,
   ((keyword_filtering_spec ["alpha", "beta"] "xx alpha yy alpha zz beta" ["alpha", "beta"]
      (by decide) true true true true true true true).2.2.2.2.2.2.2.2.2 (by decide)).1⟩

/-- Claim C8 counterexample: with two matched keywords and empty publish
time and author, the rendered message joins the keywords with the
enumeration comma `、` and contains no pipe character at all — the matched
keywords are not pipe-joined. -/
theorem format_markdown_message_keywords_not_pipe_joined :
    format_markdown_message "t" "l" "" "" "" ["alpha", "beta"]
      = "**t**\n[原文链接](l)\n关键词：alpha、beta"
  ∧ ¬ '|' ∈ (format_markdown_message "t" "l" "" "" "" ["alpha", "beta"]).data := by
  decide

/-- Claim C8, amended: `format_markdown_message` renders, in order, the
title in Markdown bold, a Markdown link labelled 原文链接 ("original
link"), one metadata line — omitted entirely when publish time, author and
matched keywords are all empty — whose present parts (publish time,
author, the `、`-joined matched keywords) are joined with `" | "`, and
(when non-empty) the summary body truncated to at most 1000 characters by
the line-aware truncation rule. -/
theorem format_markdown_message_spec (title link pub_date author summary_text : String)
    (matched_keywords : List String) :
    format_markdown_message title link pub_date author summary_text matched_keywords
      = pyJoin "\n"
          (["**" ++ title ++ "**", "[原文链接](" ++ link ++ ")"]
           ++ (if pub_date = "" ∧ author = "" ∧ matched_keywords = [] then []
               else [pyJoin " | "
                 ((if pub_date = "" then [] else ["发布时间：" ++ pub_date])
                  ++ (if author = "" then [] else ["作者：" ++ author])
                  ++ (if matched_keywords = [] then []
                      else ["关键词：" ++ pyJoin "、" matched_keywords]))])
           ++ (if summary_text = "" then []
               else ["\n" ++ truncate_text summary_text 1000]))
  ∧ (truncate_text summary_text 1000).length ≤ 1000 := by
  constructor
  · by_cases h1 : pub_date = "" <;> by_cases h2 : author = "" <;>
      by_cases h3 : matched_keywords = [] <;> by_cases h4 : summary_text = "" <;>
      simp [format_markdown_message, h1, h2, h3, h4, List.isEmpty_iff]
  · exact truncate_text_length_le _ _ (by omega)

/-- A concrete stored settings document with non-empty secrets, used by
witnesses. -/
def exampleStored : AppSettings :=
  { ai := { api_key := "real-api-key", system_prompt := "s", user_prompt_template := "u",
            timeout_seconds := 9 }
    telegram := { bot_token := "real-bot-token" }
    wecom := { webhook_key := "real-webhook-key" }
    reports := { system_prompt := "rs", user_prompt_template := "ru",
                 report_timeout_seconds := 7 }
    security := some { admin_password := "1234" } }

/-- A concrete update request carrying the redaction sentinel for every
secret and the correct password, used by witnesses. -/
def exampleRequest : UpdateSettingsRequest :=
  { settings :=
      { ai := { api_key := "***", system_prompt := "s2", user_prompt_template := "u2",
                timeout_seconds := 5 }
        telegram := { bot_token := "***" }
        wecom := { webhook_key := "***" }
        reports := { system_prompt := "r2", user_prompt_template := "u3",
                     report_timeout_seconds := 8 }
        security := some { admin_password := "" } }
    password := some "1234"
    new_password := none }

/-- The document `update_settings exampleStored exampleRequest`
persists. -/
def exampleUpdated : AppSettings :=
  { ai := { api_key := "real-api-key", system_prompt := "s2", user_prompt_template := "u2",
            timeout_seconds := 5 }
    telegram := { bot_token := "real-bot-token" }
    wecom := { webhook_key := "real-webhook-key" }
    reports := { system_prompt := "r2", user_prompt_template := "u3",
                 report_timeout_seconds := 8 }
    security := some { admin_password := "1234" } }

/-- Claim C1: the read API never echoes secrets — a non-empty api_key /
bot_token / webhook_key comes back as the sentinel `"***"` and the admin
password always comes back empty; and a successful update that submits a
secret as the sentinel `"***"` persists the previously stored value of
that secret, while with no new password the stored admin password is kept
unchanged. -/
theorem settings_secret_redaction (s old new : AppSettings)
    (req : UpdateSettingsRequest) :
    (s.ai.api_key ≠ "" → (get_settings s).ai.api_key = "***")
  ∧ (s.telegram.bot_token ≠ "" → (get_settings s).telegram.bot_token = "***")
  ∧ (s.wecom.webhook_key ≠ "" → (get_settings s).wecom.webhook_key = "***")
  ∧ (∀ sec, (get_settings s).security = some sec → sec.admin_password = "")
  ∧ (update_settings old req = .ok new →
       (req.settings.ai.api_key = "***" → new.ai.api_key = old.ai.api_key)
     ∧ (req.settings.telegram.bot_token = "***" →
         new.telegram.bot_token = old.telegram.bot_token)
     ∧ (req.settings.wecom.webhook_key = "***" →
         new.wecom.webhook_key = old.wecom.webhook_key)
     ∧ (pyStrip (req.new_password.getD "") = "" →
         ∀ sec, old.security = some sec → new.security = some sec)) := by
  refine ⟨?_, ?_, ?_, ?_, ?_⟩
  · intro h
    simp only [get_settings, maskSecrets]
    rw [(applyPromptDefaults_parts _).1, (maskAdminPassword_parts _).1,
        (maskWebhookKey_parts _).1, (maskBotToken_parts _).1]
    exact (maskApiKey_parts s).2.2.2 h
  · intro h
    have hb : (maskApiKey s).telegram.bot_token ≠ "" := by
      rw [(maskApiKey_parts s).1]
      exact h
    simp only [get_settings, maskSecrets]
    rw [(applyPromptDefaults_parts _).2.1, (maskAdminPassword_parts _).2.1,
        (maskWebhookKey_parts _).2.1]
    exact (maskBotToken_parts _).2.2.2 hb
  · intro h
    have hw : (maskBotToken (maskApiKey s)).wecom.webhook_key ≠ "" := by
      rw [(maskBotToken_parts _).2.1, (maskApiKey_parts s).2.1]
      exact h
    simp only [get_settings, maskSecrets]
    rw [(applyPromptDefaults_parts _).2.2.1, (maskAdminPassword_parts _).2.2.1]
    exact (maskWebhookKey_parts _).2.2.2 hw
  · intro sec hsec
    simp only [get_settings, maskSecrets] at hsec
    rw [(applyPromptDefaults_parts _).2.2.2] at hsec
    exact (maskAdminPassword_parts _).2.2.2 sec hsec
  · intro hok
    obtain ⟨oldSec, hsec, happ⟩ := update_settings_ok_inv old req new hok
    obtain ⟨hai, htel, hwec, hempty, hfull⟩ := applyNewPassword_ok _ _ _ _ happ
    refine ⟨?_, ?_, ?_, ?_⟩
    · intro hstar
      rw [hai, (applySecurityDefault_parts _).1, (applyPromptDefaults_parts _).1]
      simp only [applySecretSentinels]
      rw [(sentinelWebhookKey_parts _ _).1, (sentinelBotToken_parts _ _).1]
      exact (sentinelApiKey_parts old req.settings).2.2.2 hstar
    · intro hstar
      have hb : (sentinelApiKey old req.settings).telegram.bot_token = "***" := by
        rw [(sentinelApiKey_parts _ _).1]
        exact hstar
      rw [htel, (applySecurityDefault_parts _).2.1, (applyPromptDefaults_parts _).2.1]
      simp only [applySecretSentinels]
      rw [(sentinelWebhookKey_parts _ _).2.1]
      exact (sentinelBotToken_parts _ _).2.2.2 hb
    · intro hstar
      have hw : (sentinelBotToken old (sentinelApiKey old req.settings)).wecom.webhook_key
          = "***" := by
        rw [(sentinelBotToken_parts _ _).2.1, (sentinelApiKey_parts _ _).2.1]
        exact hstar
      rw [hwec, (applySecurityDefault_parts _).2.2, (applyPromptDefaults_parts _).2.2.1]
      simp only [applySecretSentinels]
      exact (sentinelWebhookKey_parts _ _).2.2.2 hw
    · intro hnp sec hsec2
      rw [hsec] at hsec2
      obtain rfl : oldSec = sec := Option.some.inj hsec2
      rw [hempty hnp]

/-- Witness for `settings_secret_redaction` at a concrete stored document
and sentinel-carrying request. -/
theorem settings_secret_redaction_witness :
    (get_settings exampleStored).ai.api_key = "***"
  ∧ (get_settings exampleStored).telegram.bot_token = "***"
  ∧ (get_settings exampleStored).wecom.webhook_key = "***"
  ∧ (∀ sec, (get_settings exampleStored).security = some sec → sec.admin_password = "")
  ∧ update_settings exampleStored exampleRequest = .ok exampleUpdated
  ∧ exampleUpdated.ai.api_key = exampleStored.ai.api_key
  ∧ exampleUpdated.security = some { admin_password := "1234" } := by
  have hV : update_settings exampleStored exampleRequest = .ok exampleUpdated := rfl
  have h := settings_secret_redaction exampleStored exampleStored exampleUpdated
    exampleRequest
  refine ⟨h.1 (by decide), h.2.1 (by decide), h.2.2.1 (by decide), h.2.2.2.1, hV,
    (h.2.2.2.2 hV).1 (by decide), (h.2.2.2.2 hV).2.2.2 (by decide) _ rfl⟩

/-- Claim C2: `update_settings` rejects a request whose stripped password
is not exactly 4 digits with a 400 error, and a well-formed password that
does not equal the stored admin password with a 403 error; in both cases
the handler raises before its `save_settings` call, so the stored document
is unchanged. -/
theorem update_settings_password_validation (old : AppSettings)
    (req : UpdateSettingsRequest) :
    (¬ (pyIsDigit (pyStrip (req.password.getD "")) = true
        ∧ (pyStrip (req.password.getD "")).length = 4) →
      update_settings old req = .error { status := 400, detail := "密码必须为4位数字" }
      ∧ storeAfter old req = old)
  ∧ (∀ sec, old.security = some sec →
      pyIsDigit (pyStrip (req.password.getD "")) = true →
      (pyStrip (req.password.getD "")).length = 4 →
      pyStrip (req.password.getD "") ≠ sec.admin_password →
      update_settings old req = .error { status := 403, detail := "密码错误" }
      ∧ storeAfter old req = old) := by
  constructor
  · intro h
    have herr : update_settings old req
        = .error { status := 400, detail := "密码必须为4位数字" } := by
      simp only [update_settings]
      rw [if_pos h]
    exact ⟨herr, by rw [storeAfter, herr]⟩
  · intro sec hsec hd hl hne
    have herr : update_settings old req
        = .error { status := 403, detail := "密码错误" } := by
      simp only [update_settings, hsec]
      rw [if_neg (not_not_intro ⟨hd, hl⟩), if_pos hne]
    exact ⟨herr, by rw [storeAfter, herr]⟩

/-- Witness for `update_settings_password_validation`: a 3-digit password
is rejected with 400, a wrong 4-digit password with 403, and the store is
unchanged. -/
theorem update_settings_password_validation_witness :
    update_settings exampleStored
        { settings := defaults, password := some "123", new_password := none }
      = .error { status := 400, detail := "密码必须为4位数字" }
  ∧ update_settings exampleStored
        { settings := defaults, password := some "9999", new_password := none }
      = .error { status := 403, detail := "密码错误" }
  ∧ storeAfter exampleStored
        { settings := defaults, password := some "123", new_password := none }
      = exampleStored :=
  ⟨((update_settings_password_validation exampleStored
      { settings := defaults, password := some "123", new_password := none }).1
      (by decide)).1,
   ((update_settings_password_validation exampleStored
      { settings := defaults, password := some "9999", new_password := none }).2
      { admin_password := "1234" } rfl (by decide) (by decide) (by decide)).1,
   ((update_settings_password_validation exampleStored
      { settings := defaults, password := some "123", new_password := none }).1
      (by decide)).2⟩

/-- Claim C9: `update_settings` strips surrounding whitespace from both the
submitted password and the optional new password before the 4-digit
checks: a password stripping to the stored 4-digit value authenticates
(the update reaches its save), and a new password stripping to 4 digits is
accepted and persisted in stripped form. -/
theorem update_settings_strips_whitespace (old : AppSettings)
    (req : UpdateSettingsRequest) (sec : Security)
    (hsec : old.security = some sec)
    (hpw : pyStrip (req.password.getD "") = sec.admin_password)
    (hd : pyIsDigit sec.admin_password = true)
    (hl : sec.admin_password.length = 4) :
    (pyStrip (req.new_password.getD "") = "" →
      ∃ new, update_settings old req = .ok new ∧ new.security = some sec)
  ∧ (pyStrip (req.new_password.getD "") ≠ "" →
      pyIsDigit (pyStrip (req.new_password.getD "")) = true →
      (pyStrip (req.new_password.getD "")).length = 4 →
      ∃ new, update_settings old req = .ok new
        ∧ new.security = some { admin_password := pyStrip (req.new_password.getD "") }) := by
  have hd' : pyIsDigit (pyStrip (req.password.getD "")) = true := by rw [hpw]; exact hd
  have hl' : (pyStrip (req.password.getD "")).length = 4 := by rw [hpw]; exact hl
  have hbase := update_settings_ok_of old req sec hsec hd' hl' hpw
  constructor
  · intro hnp
    have hok : update_settings old req
        = .ok { applySecurityDefault (applyPromptDefaults
                  (applySecretSentinels old req.settings))
                with security := some { admin_password := sec.admin_password } } := by
      rw [hbase]
      simp only [applyNewPassword]
      rw [if_neg (not_not_intro hnp)]
    refine ⟨_, hok, ?_⟩
    cases sec
    rfl
  · intro hnp hdig hlen
    have hok : update_settings old req
        = .ok { applySecurityDefault (applyPromptDefaults
                  (applySecretSentinels old req.settings))
                with security := some { admin_password := pyStrip (req.new_password.getD "") } } := by
      rw [hbase]
      simp only [applyNewPassword]
      rw [if_pos hnp, if_neg (not_not_intro ⟨hdig, hlen⟩)]
    exact ⟨_, hok, rfl⟩

/-- Witness for `update_settings_strips_whitespace`: the stored password
is "1234"; the submitted password " 1234 " authenticates after stripping,
and a new password " 5678 " is persisted as "5678"; with no new password
the old one is kept. -/
theorem update_settings_strips_whitespace_witness :
    (∃ new, update_settings exampleStored
        { settings := defaults, password := some " 1234 ",
          new_password := some " 5678 " }
      = .ok new ∧ new.security = some { admin_password := "5678" })
  ∧ (∃ new, update_settings exampleStored
        { settings := defaults, password := some " 1234 ", new_password := none }
      = .ok new ∧ new.security = some { admin_password := "1234" }) := by
  constructor
  · exact (update_settings_strips_whitespace exampleStored
      { settings := defaults, password := some " 1234 ", new_password := some " 5678 " }
      { admin_password := "1234" } rfl (by decide) (by decide) (by decide)).2
      (by decide) (by decide) (by decide)
  · exact (update_settings_strips_whitespace exampleStored
      { settings := defaults, password := some " 1234 ", new_password := none }
      { admin_password := "1234" } rfl (by decide) (by decide) (by decide)).1
      (by decide)

end RSSAI
